import Mathlib

/-!
Shallow embedding of the cruiser tic-tac-toe tutorial program: the recursive
board engine (`Board`, `Space`, `is_winner`), the game session record
(`Game`), player profiles, and the four lifecycle operations (create, join,
move, forfeit) as pure functions over explicit state.

Machine integers are modelled as `Nat` (u64/u8) and `Int` (i64 timestamps),
with explicit saturation/overflow checks where the source performs them.
Fallible operations return `Except CruiserError`.
-/

namespace Tutorial

/-- A player (source: `Player` enum in `accounts/game.rs`). -/
inductive Player
  /-- Player 1 -/
  | one
  /-- Player 2 -/
  | two
deriving DecidableEq, Repr

/-- A space on the game board (source: `Space` enum in `accounts/game.rs`). -/
inductive Space
  /-- Player 1's space -/
  | playerOne
  /-- Player 2's space -/
  | playerTwo
  /-- Empty space -/
  | empty
deriving DecidableEq, Repr

/-- Conversion from `Player` (source: `impl From<Player> for Space`). -/
def Space.ofPlayer : Player → Space
  | Player.one => Space.playerOne
  | Player.two => Space.playerTwo

/-- Default space is `Empty` (source: `impl Default for Space`). -/
instance : Inhabited Space := ⟨Space.empty⟩

/-- A fixed-length-3 array, modelling Rust `[S; 3]`. -/
structure Vec3 (S : Type) where
  /-- element 0 -/
  x0 : S
  /-- element 1 -/
  x1 : S
  /-- element 2 -/
  x2 : S
deriving DecidableEq, Repr

/-- Indexing a `Vec3` by a `Fin 3`, modelling in-bounds Rust array indexing. -/
def Vec3.get (v : Vec3 S) : Fin 3 → S
  | ⟨0, _⟩ => v.x0
  | ⟨1, _⟩ => v.x1
  | ⟨2, _⟩ => v.x2

/-- In-place update of one element, modelling Rust array element assignment. -/
def Vec3.set (v : Vec3 S) (i : Fin 3) (x : S) : Vec3 S :=
  match i with
  | ⟨0, _⟩ => { v with x0 := x }
  | ⟨1, _⟩ => { v with x1 := x }
  | ⟨2, _⟩ => { v with x2 := x }

/-- Short-circuit existential over the three elements, modelling `iter().any`. -/
def Vec3.any (v : Vec3 S) (f : S → Bool) : Bool :=
  f v.x0 || f v.x1 || f v.x2

/-- Short-circuit universal over the three elements, modelling `iter().all`. -/
def Vec3.all (v : Vec3 S) (f : S → Bool) : Bool :=
  f v.x0 && f v.x1 && f v.x2

/-- A 3×3 grid in row-column format, modelling Rust `[[S; 3]; 3]`. -/
abbrev Grid (S : Type) := Vec3 (Vec3 S)

/-- A board (source: `Board<S>` enum in `accounts/game.rs`): either unsolved
with a 3×3 grid of cells, or solved by a player. -/
inductive Board (S : Type)
  /-- Board has no winner yet. Board is in RC format. -/
  | unsolved (grid : Grid S)
  /-- Board has a winner -/
  | solved (player : Player)
deriving DecidableEq, Repr

/-- Default board is fully unsolved with default cells
(source: `impl Default for Board<S>`). -/
def Board.defaultBoard [Inhabited S] : Board S :=
  Board.unsolved ⟨⟨default, default, default⟩, ⟨default, default, default⟩,
    ⟨default, default, default⟩⟩

instance [Inhabited S] : Inhabited (Board S) := ⟨Board.defaultBoard⟩

/-- Errors returned by the program core. `custom` models
`GenericError::Custom`; `indexOutOfBounds` models a Rust array-indexing
abort on an out-of-range index. -/
inductive CruiserError
  /-- A custom error with a message -/
  | custom (error : String)
  /-- Rust out-of-bounds array index abort -/
  | indexOutOfBounds
deriving DecidableEq, Repr

instance {E A : Type} [DecidableEq E] [DecidableEq A] : DecidableEq (Except E A) := fun x y =>
  match x, y with
  | Except.ok a, Except.ok b =>
    if h : a = b then isTrue (by rw [h]) else isFalse (fun hc => h (Except.ok.inj hc))
  | Except.ok _, Except.error _ => isFalse (fun hc => Except.noConfusion hc)
  | Except.error _, Except.ok _ => isFalse (fun hc => Except.noConfusion hc)
  | Except.error a, Except.error b =>
    if h : a = b then isTrue (by rw [h]) else isFalse (fun hc => h (Except.error.inj hc))

/-- The `CurrentWinner` trait from `accounts/game.rs`: shared winner-checking
and move logic for spaces, sub-boards and the main board. `Index` is the
trait's associated move-index type. -/
class CurrentWinner (S : Type) (I : outParam Type) where
  /-- Gets the current player on the space. -/
  current_winner : S → Option Player
  /-- Solves the current board to see if there is a winner. -/
  make_move : S → Player → I → Except CruiserError S

/-- Winner of a single space (source: `impl CurrentWinner for Space`). -/
def Space.current_winner : Space → Option Player
  | Space.playerOne => some Player.one
  | Space.playerTwo => some Player.two
  | Space.empty => none

/-- Move on a single space: unconditionally overwrites the space with the
moving player's mark and succeeds (source: `Space::make_move`). -/
def Space.make_move (s : Space) (player : Player) (_index : Unit) :
    Except CruiserError Space :=
  let _ := s
  Except.ok (Space.ofPlayer player)

instance : CurrentWinner Space Unit :=
  ⟨Space.current_winner, Space.make_move⟩

/-- The list `[0, 1, 2]` of indices, modelling `0..3` loops. -/
def fin3 : List (Fin 3) := [0, 1, 2]

/-- Gets the winner of a board. This could be a sub-board or the main board
(source: `is_winner` in `accounts/game.rs`): true iff some row, column or
diagonal is fully occupied by cells whose `current_winner` is `last_turn`. -/
def is_winner [CurrentWinner S I] (board : Grid S) (last_turn : Player) : Bool :=
  -- Check rows
  if board.any (fun row =>
      row.all (fun s =>
        (Option.map (fun winner => winner == last_turn)
          (CurrentWinner.current_winner (I := I) s)).getD false)) then
    true
  -- Check columns
  else if fin3.any (fun col =>
      board.all (fun row =>
        match CurrentWinner.current_winner (I := I) (row.get col) with
        | some player => player == last_turn
        | none => false)) then
    true
  else
    -- Check diagonals
    let diagonal1 := fin3.countP (fun index =>
      match CurrentWinner.current_winner (I := I)
          ((board.get index).get index) with
      | some player => player == last_turn
      | none => false)
    let diagonal2 := fin3.countP (fun index =>
      match CurrentWinner.current_winner (I := I)
          ((board.get index).get (Fin.rev index)) with
      | some player => player == last_turn
      | none => false)
    diagonal1 == 3 || diagonal2 == 3

/-- Winner of a board (source: `impl CurrentWinner for Board<S>`):
`Unsolved` has no winner, `Solved(player)` is won by `player`. -/
def Board.current_winner : Board S → Option Player
  | Board.unsolved _ => none
  | Board.solved player => some player

/-- Move on a board (source: `Board::make_move`): on an unsolved board,
delegate to the addressed sub-cell's `make_move`, then re-check `is_winner`
for the mover and mark the board `Solved` if it holds; on a solved board,
fail. An out-of-range index aborts (Rust slice-index panic). -/
def Board.make_move [CurrentWinner S I] (b : Board S) (player : Player)
    (index : (Nat × Nat) × I) : Except CruiserError (Board S) :=
  match b with
  | Board.unsolved sub_board =>
    if h0 : index.1.1 < 3 then
      if h1 : index.1.2 < 3 then
        match CurrentWinner.make_move
            ((sub_board.get ⟨index.1.1, h0⟩).get ⟨index.1.2, h1⟩)
            player index.2 with
        | Except.error e => Except.error e
        | Except.ok cell =>
          let sub_board' := sub_board.set ⟨index.1.1, h0⟩
            ((sub_board.get ⟨index.1.1, h0⟩).set ⟨index.1.2, h1⟩ cell)
          -- Now we check if we are solved.
          if is_winner (I := I) sub_board' player then
            Except.ok (Board.solved player)
          else
            Except.ok (Board.unsolved sub_board')
      else Except.error CruiserError.indexOutOfBounds
    else Except.error CruiserError.indexOutOfBounds
  | Board.solved _ =>
    -- Cannot make a move on a solved board.
    Except.error (CruiserError.custom "Cannot make move on solved board")

instance [CurrentWinner S I] : CurrentWinner (Board S) ((Nat × Nat) × I) :=
  ⟨Board.current_winner, Board.make_move⟩

/-- Modelled from the spec: `Board::get` is declared in this repository's
board engine and called by `is_valid_move` (`instructions/make_move.rs`) but
its definition is not among the provided sources. Per the spec, it addresses
"the sub-board addressed by the current `last_move`" and "the target leaf
cell (addressed by `big_board` then `small_board`)": on an unsolved board it
returns the cell at an in-range row-column index and nothing otherwise; a
solved board has no addressable cells. -/
def Board.get (b : Board S) (index : Nat × Nat) : Option S :=
  match b with
  | Board.unsolved board =>
    if h0 : index.1 < 3 then
      if h1 : index.2 < 3 then
        some ((board.get ⟨index.1, h0⟩).get ⟨index.2, h1⟩)
      else none
    else none
  | Board.solved _ => none

/-- An account address, modelled as a number (`Pubkey` is `[u8; 32]`); `0`
is the all-zero key, which is also the system program's key
(`SystemProgram::KEY`). -/
abbrev Pubkey := Nat

/-- The largest u64 value. -/
def U64_MAX : Nat := 2 ^ 64 - 1

/-- The largest i64 value. -/
def I64_MAX : Int := 2 ^ 63 - 1

/-- The smallest i64 value. -/
def I64_MIN : Int := -(2 ^ 63)

/-- u64 saturating addition (`saturating_add_assign` on profile counters). -/
def saturating_add (a b : Nat) : Nat := min (a + b) U64_MAX

/-- i64 saturating addition (`UnixTimestamp::saturating_add`). -/
def saturating_add_i64 (a b : Int) : Int := max I64_MIN (min (a + b) I64_MAX)

/-- u64 checked multiplication (`u64::checked_mul`): `none` on overflow. -/
def checked_mul (a b : Nat) : Option Nat :=
  if a * b ≤ U64_MAX then some (a * b) else none

/-- The game record (source: `Game` struct in `accounts/game.rs`). -/
structure Game where
  /-- The version of this account. -/
  version : Nat
  /-- The first player's profile. -/
  player1 : Pubkey
  /-- The second player's profile. -/
  player2 : Pubkey
  /-- Which player was the creator and entitled to the rent. -/
  creator : Player
  /-- The player to take the next move. -/
  next_play : Player
  /-- The bump of the signer that holds the wager. -/
  signer_bump : Nat
  /-- The wager per player in lamports. -/
  wager : Nat
  /-- The amount of time in seconds to play a given turn before forfeiting. -/
  turn_length : Int
  /-- The last turn timestamp. If 0 game is not started. -/
  last_turn : Int
  /-- The last move a player did. If `[3,3]` last move is game start. -/
  last_move : Nat × Nat
  /-- The current board. In RC format. -/
  board : Board (Board Space)
deriving DecidableEq, Repr

/-- Creates a new game record (source: `Game::new`). -/
def Game.new (player_profile : Pubkey) (player : Player) (signer_bump : Nat)
    (wager : Nat) (turn_length : Int) : Game where
  version := 0
  player1 := if player = Player.one then player_profile else 0
  player2 := if player = Player.two then player_profile else 0
  creator := player
  next_play := Player.one
  signer_bump := signer_bump
  wager := wager
  turn_length := turn_length
  last_turn := 0
  last_move := (3, 3)
  board := Board.defaultBoard

/-- Tells whether the game has started (source: `Game::is_started`). -/
def Game.is_started (game : Game) : Bool := decide (0 < game.last_turn)

/-- A player's profile (source: `PlayerProfile` in `accounts/player_profile.rs`). -/
structure PlayerProfile where
  /-- The key allowed to act for this profile. -/
  authority : Pubkey
  /-- The number of wins this player has. -/
  wins : Nat
  /-- The number of losses this player has. -/
  losses : Nat
  /-- The number of draws this player has. -/
  draws : Nat
  /-- The amount of lamports this player has won. -/
  lamports_won : Nat
  /-- The amount of lamports this player has lost. -/
  lamports_lost : Nat
  /-- The elo rating of the player. -/
  elo : Nat
deriving DecidableEq, Repr

/-- An abstract Elo pair update. `update_elo` in `accounts/player_profile.rs`
performs the logistic Elo computation in 64-bit floating point; its numeric
body is not shallow-embeddable, so settlement code is parametrized by the
function `(winner_elo, loser_elo) ↦ (winner_elo', loser_elo')` standing for
`fun a b => update_elo(&mut a, &mut b, k, true)` at the caller's `k`. -/
abbrev EloUpdate := Nat → Nat → Nat × Nat

/-- The payload of a MakeMove request (source: `MakeMoveData`). -/
structure MakeMoveData where
  /-- Index on the big board -/
  big_board : Nat × Nat
  /-- Index on the small board -/
  small_board : Nat × Nat
deriving DecidableEq, Repr

/-- Session-level move legality (source: `is_valid_move` in
`instructions/make_move.rs`), checked in the validate phase before the
processor runs. -/
def is_valid_move (game : Game) (mov : MakeMoveData) : Bool :=
  -- Verify valid with last move
  (decide (game.last_move = (3, 3))
      || (match game.board.get game.last_move with
          | some board => board.current_winner.isSome
              || decide (mov.big_board = game.last_move)
          | none => false))
    && (match game.board.get mov.big_board with
        | some board =>
          match board.get mov.small_board with
          | some space => space == Space.empty
          | none => false
        | none => false)

/-- The accounts a ForfeitGame invocation reads and writes: the game record,
the calling player's profile, the other player's profile, the lamport
balance of the game's escrow signer, and the lamport balance of the
`funds_to` recipient. -/
structure ForfeitState where
  /-- The game the other player has forfeited. -/
  game : Game
  /-- The profile of the calling player. -/
  player_profile : PlayerProfile
  /-- The other player's profile. -/
  other_profile : PlayerProfile
  /-- Lamports held by the game's escrow signer. -/
  game_signer_lamports : Nat
  /-- Lamports held by the `funds_to` recipient. -/
  funds_to_lamports : Nat
deriving DecidableEq, Repr

/-- The validate-phase checks on the `game` account of `ForfeitGameAccounts`
(source: `instructions/forfeit_game.rs`): timing check, the calling profile
must be the player who is NOT `next_play`, and the supplied other profile
must be the `next_play` player's. The framework-level signer and
profile-authority checks are the external collaborator's concern. -/
def forfeit_validate (game : Game) (player_profile_key other_profile_key : Pubkey)
    (now : Int) : Bool :=
  (game.turn_length == 0
      || decide (saturating_add_i64 game.last_turn game.turn_length < now))
    && (match game.next_play with
        | Player.one => player_profile_key == game.player2
        | Player.two => player_profile_key == game.player1)
    && (match game.next_play with
        | Player.one => other_profile_key == game.player1
        | Player.two => other_profile_key == game.player2)

/-- The ForfeitGame processor (source: `ForfeitGame::process`): transfer the
whole escrow balance to `funds_to`, zero out the players so the game is
dead, credit the claimant's profile with the wager and a win, debit the
defaulter's profile, and update both elo ratings with the claimant as
winner (the source passes `k = 50.0, a_won = true` to `update_elo`). -/
def forfeit_process (update_elo_k50 : EloUpdate) (s : ForfeitState) : ForfeitState :=
  let transfer_amount := s.game_signer_lamports
  let eloPair := update_elo_k50 s.player_profile.elo s.other_profile.elo
  { game := { s.game with player1 := 0, player2 := 0 }
    player_profile :=
      { s.player_profile with
        lamports_won := saturating_add s.player_profile.lamports_won s.game.wager
        wins := saturating_add s.player_profile.wins 1
        elo := eloPair.1 }
    other_profile :=
      { s.other_profile with
        lamports_lost := saturating_add s.other_profile.lamports_lost s.game.wager
        losses := saturating_add s.other_profile.losses 1
        elo := eloPair.2 }
    game_signer_lamports := 0
    funds_to_lamports := s.funds_to_lamports + transfer_amount }

/-- The whole ForfeitGame operation: validate-phase checks first, rejecting
with no mutation on failure, then the processor. -/
def forfeit_game (update_elo_k50 : EloUpdate) (player_profile_key other_profile_key : Pubkey)
    (now : Int) (s : ForfeitState) : Except CruiserError ForfeitState :=
  if forfeit_validate s.game player_profile_key other_profile_key now then
    Except.ok (forfeit_process update_elo_k50 s)
  else
    Except.error (CruiserError.custom "forfeit validation failed")

/-- The accounts a MakeMove invocation reads and writes. The escrow signer,
other profile, funds recipient and system program are optional: only needed
if the move will win the game. -/
structure MakeMoveState where
  /-- The game to make a move on. -/
  game : Game
  /-- The mover's profile. -/
  player_profile : PlayerProfile
  /-- The other player's profile, when supplied. -/
  other_profile : Option PlayerProfile
  /-- Lamports of the game's escrow signer, when supplied. -/
  game_signer_lamports : Option Nat
  /-- Lamports of the funds recipient, when supplied. -/
  funds_to_lamports : Option Nat
  /-- Whether the system program account was supplied. -/
  has_system_program : Bool
deriving DecidableEq, Repr

/-- The validate-phase checks of `MakeMoveAccounts` (source:
`instructions/make_move.rs`): the struct-level `is_valid_move` custom check,
the game must be started, the mover's profile must be the `next_play`
player's, and a supplied other profile must be the opposite player's. -/
def make_move_validate (game : Game) (player_profile_key : Pubkey)
    (other_profile_key : Option Pubkey) (mov : MakeMoveData) : Bool :=
  is_valid_move game mov
    && game.is_started
    && (match game.next_play with
        | Player.one => game.player1 == player_profile_key
        | Player.two => game.player2 == player_profile_key)
    && (match other_profile_key, game.next_play with
        | some key, Player.one => game.player2 == key
        | some key, Player.two => game.player1 == key
        | none, _ => true)

/-- The MakeMove processor (source: `MakeMove::process`): apply the board
engine's `make_move` as the `next_play` occupant; if the top-level board is
then won by `next_play`, require the optional settlement accounts, pay the
whole escrow balance to `funds_to`, burn the game's player keys and update
both profiles; otherwise toggle `next_play`, stamp `last_turn` with the
clock and record `last_move`. -/
def make_move_process (s : MakeMoveState) (data : MakeMoveData) (now : Int) :
    Except CruiserError MakeMoveState :=
  let next_play := s.game.next_play
  match Board.make_move s.game.board next_play
      (data.big_board, (data.small_board, ())) with
  | Except.error e => Except.error e
  | Except.ok board' =>
    if board'.current_winner == some next_play then
      match s.game_signer_lamports with
      | none => Except.error (CruiserError.custom "no game_signer on win")
      | some signer_lamports =>
        match s.other_profile with
        | none => Except.error (CruiserError.custom "no other_profile on win")
        | some other_profile =>
          match s.funds_to_lamports with
          | none => Except.error (CruiserError.custom "no funds_to on win")
          | some funds_to_lamports =>
            if s.has_system_program then
              let winnings := signer_lamports
              Except.ok
                { game := { s.game with
                    board := board'
                    player1 := 0
                    player2 := 0 }
                  player_profile :=
                    { s.player_profile with
                      wins := saturating_add s.player_profile.wins 1
                      lamports_won :=
                        saturating_add s.player_profile.lamports_won winnings }
                  other_profile := some
                    { other_profile with
                      losses := saturating_add other_profile.losses 1
                      lamports_lost :=
                        saturating_add other_profile.lamports_lost winnings }
                  game_signer_lamports := some 0
                  funds_to_lamports := some (funds_to_lamports + winnings)
                  has_system_program := true }
            else Except.error (CruiserError.custom "no system_program on win")
    else
      Except.ok
        { s with game := { s.game with
            board := board'
            next_play := match next_play with
              | Player.one => Player.two
              | Player.two => Player.one
            last_turn := now
            last_move := data.small_board } }

/-- The whole MakeMove operation: validate-phase checks first, rejecting
with no mutation on failure, then the processor. -/
def make_move_instruction (player_profile_key : Pubkey)
    (other_profile_key : Option Pubkey) (s : MakeMoveState)
    (data : MakeMoveData) (now : Int) : Except CruiserError MakeMoveState :=
  if make_move_validate s.game player_profile_key other_profile_key data then
    make_move_process s data now
  else
    Except.error (CruiserError.custom "make_move validation failed")

/-- The payload of a CreateGame request (source: `CreateGameData`). -/
structure CreateGameData where
  /-- Which position the creator wants to play in. -/
  creator_player : Player
  /-- The bump for the game signer. -/
  signer_bump : Nat
  /-- The wager each player will place. Winner gets double this amount. -/
  wager : Nat
  /-- The length of time each player gets to play their turn. -/
  turn_length : Int
deriving DecidableEq, Repr

/-- The CreateGame operation (source: `CreateGameAccounts` from-phase plus
`CreateGame::process`): the from-phase custom check
`create_data.wager.checked_mul(2).is_some()` runs during account parsing,
before the game account is initialized; on success the game record is built
by `Game::new` and the creator's wager is escrowed. -/
def create_game (data : CreateGameData) (player_profile_key : Pubkey) :
    Except CruiserError Game :=
  if (checked_mul data.wager 2).isSome then
    Except.ok (Game.new player_profile_key data.creator_player
      data.signer_bump data.wager data.turn_length)
  else
    Except.error (CruiserError.custom "wager overflow")

/-! Concrete boards, profiles and operation states used to evaluate the
definitions on explicit inputs. -/

/-- The identity Elo pair update, a concrete instance of the abstract
`EloUpdate` parameter. -/
def idElo : EloUpdate := fun a b => (a, b)

/-- A row of three empty spaces. -/
def emptyRow : Vec3 Space := ⟨Space.empty, Space.empty, Space.empty⟩

/-- An empty, unsolved sub-board. -/
def subEmpty : Board Space := Board.defaultBoard

/-- A sub-board where player one occupies the first two cells of row 0. -/
def subNearWin : Board Space :=
  Board.unsolved ⟨⟨Space.playerOne, Space.playerOne, Space.empty⟩, emptyRow, emptyRow⟩

/-- A top-level board where sub-boards (0,0) and (0,1) are solved by player
one and sub-board (0,2) is one cell short of a row for player one: a move by
player one at big (0,2), small (0,2) wins the whole game. -/
def topNearWin : Board (Board Space) :=
  Board.unsolved ⟨⟨Board.solved Player.one, Board.solved Player.one, subNearWin⟩,
    ⟨subEmpty, subEmpty, subEmpty⟩, ⟨subEmpty, subEmpty, subEmpty⟩⟩

/-- A grid whose row 0 is fully occupied by player one and whose row 1 is
fully occupied by player two. -/
def twoLineGrid : Grid Space :=
  ⟨⟨Space.playerOne, Space.playerOne, Space.playerOne⟩,
   ⟨Space.playerTwo, Space.playerTwo, Space.playerTwo⟩, emptyRow⟩

/-- A fresh profile whose authority is key 1. -/
def profileA : PlayerProfile := ⟨1, 0, 0, 0, 0, 0, 1200⟩

/-- A fresh profile whose authority is key 2. -/
def profileB : PlayerProfile := ⟨2, 0, 0, 0, 0, 0, 1200⟩

/-- A started game with `turn_length = 0`, profile keys 1 (player one) and 2
(player two), wager 5, and player one to move. -/
def gameZeroTurnLength : Game :=
  { version := 0, player1 := 1, player2 := 2, creator := Player.one
    next_play := Player.one, signer_bump := 255, wager := 5, turn_length := 0
    last_turn := 100, last_move := (3, 3), board := Board.defaultBoard }

/-- A ForfeitGame state over `gameZeroTurnLength`: caller is player two's
profile, the escrow holds the 10-lamport pot (2 × wager 5). -/
def forfeitS : ForfeitState :=
  { game := gameZeroTurnLength, player_profile := profileB
    other_profile := profileA, game_signer_lamports := 10, funds_to_lamports := 0 }

/-- A ForfeitGame state for a game already settled: both player keys have
been burned to the zero key. -/
def forfeitSettledS : ForfeitState :=
  { game := { gameZeroTurnLength with player1 := 0, player2 := 0 }
    player_profile := profileB, other_profile := profileA
    game_signer_lamports := 0, funds_to_lamports := 10 }

/-- A MakeMove state whose game board is already solved. -/
def solvedGameS : MakeMoveState :=
  { game := { gameZeroTurnLength with board := Board.solved Player.one }
    player_profile := profileA, other_profile := none
    game_signer_lamports := none, funds_to_lamports := none
    has_system_program := false }

/-- A started game one move away from a win by player one: player one to
move, one cell short of completing sub-board (0,2) and with it the top row. -/
def winGame : Game :=
  { version := 0, player1 := 10, player2 := 20, creator := Player.one
    next_play := Player.one, signer_bump := 255, wager := 50, turn_length := 1
    last_turn := 5, last_move := (0, 2), board := topNearWin }

/-- A MakeMove state over `winGame` with the settlement accounts supplied and
a 100-lamport escrow (2 × wager 50). -/
def winMoveS : MakeMoveState :=
  { game := winGame, player_profile := profileA, other_profile := some profileB
    game_signer_lamports := some 100, funds_to_lamports := some 7
    has_system_program := true }

/-- The expected post-state of the winning move on `winMoveS`. -/
def winResultS : MakeMoveState :=
  { game := { winGame with board := Board.solved Player.one, player1 := 0, player2 := 0 }
    player_profile := { profileA with wins := 1, lamports_won := 100 }
    other_profile := some { profileB with losses := 1, lamports_lost := 100 }
    game_signer_lamports := some 0, funds_to_lamports := some 107
    has_system_program := true }

/-- A started, freshly joined game (sentinel last_move, empty board). -/
def freshGame : Game :=
  { version := 0, player1 := 10, player2 := 20, creator := Player.one,
    next_play := Player.one, signer_bump := 255, wager := 50, turn_length := 1,
    last_turn := 50, last_move := (3, 3), board := Board.defaultBoard }

/-- A MakeMove state over `freshGame` without the optional win accounts. -/
def nonWinS : MakeMoveState :=
  { game := freshGame, player_profile := profileA, other_profile := none
    game_signer_lamports := none, funds_to_lamports := none
    has_system_program := false }

/-- The sub-board after player one's first move at cell (1,1). -/
def subAfterFirst : Board Space :=
  Board.unsolved ⟨emptyRow, ⟨Space.empty, Space.playerOne, Space.empty⟩, emptyRow⟩

/-- The top board after player one's first move at big (0,0), small (1,1). -/
def boardAfterFirst : Board (Board Space) :=
  Board.unsolved ⟨⟨subAfterFirst, subEmpty, subEmpty⟩,
    ⟨subEmpty, subEmpty, subEmpty⟩, ⟨subEmpty, subEmpty, subEmpty⟩⟩

/-! Helper lemmas. -/

/-- An existential over `Fin 3` is a three-way disjunction. -/
theorem fin3_exists_iff (P : Fin 3 → Prop) : (∃ i, P i) ↔ P 0 ∨ P 1 ∨ P 2 := by
  constructor
  · rintro ⟨i, h⟩
    fin_cases i
    · exact Or.inl h
    · exact Or.inr (Or.inl h)
    · exact Or.inr (Or.inr h)
  · rintro (h | h | h)
    exacts [⟨0, h⟩, ⟨1, h⟩, ⟨2, h⟩]

/-- A universal over `Fin 3` is a three-way conjunction. -/
theorem fin3_forall_iff (P : Fin 3 → Prop) : (∀ i, P i) ↔ P 0 ∧ P 1 ∧ P 2 := by
  constructor
  · intro h
    exact ⟨h 0, h 1, h 2⟩
  · rintro ⟨h0, h1, h2⟩ i
    fin_cases i <;> assumption

/-- `Vec3.any` succeeds exactly when some index satisfies the predicate. -/
theorem Vec3.any_eq_true_iff (v : Vec3 S) (f : S → Bool) :
    v.any f = true ↔ ∃ i : Fin 3, f (v.get i) = true := by
  rw [fin3_exists_iff]
  simp [Vec3.any, Vec3.get, Bool.or_eq_true, or_assoc]

/-- `Vec3.all` succeeds exactly when every index satisfies the predicate. -/
theorem Vec3.all_eq_true_iff (v : Vec3 S) (f : S → Bool) :
    v.all f = true ↔ ∀ i : Fin 3, f (v.get i) = true := by
  rw [fin3_forall_iff]
  simp [Vec3.all, Vec3.get, Bool.and_eq_true, and_assoc]

/-- Every index is in the loop list `fin3`. -/
theorem mem_fin3 (i : Fin 3) : i ∈ fin3 := by
  fin_cases i <;> simp [fin3]

/-- `List.any` over the loop list `fin3` is an existential over `Fin 3`. -/
theorem fin3_any_iff (p : Fin 3 → Bool) :
    fin3.any p = true ↔ ∃ i : Fin 3, p i = true := by
  rw [List.any_eq_true]
  exact ⟨fun ⟨i, _, h⟩ => ⟨i, h⟩, fun ⟨i, h⟩ => ⟨i, mem_fin3 i, h⟩⟩

/-- The diagonal counter reaches 3 exactly when every index matches. -/
theorem fin3_countP_eq_three_iff (p : Fin 3 → Bool) :
    (fin3.countP p == 3) = true ↔ ∀ i : Fin 3, p i = true := by
  rw [fin3_forall_iff]
  cases h0 : p 0 <;> cases h1 : p 1 <;> cases h2 : p 2 <;>
    simp [fin3, List.countP, List.countP.go, h0, h1, h2]

/-- The `matches!(…, Some(player) if player == c)` pattern. -/
theorem winner_match_iff (w : Option Player) (c : Player) :
    (match w with
      | some player => player == c
      | none => false) = true ↔ w = some c := by
  cases w <;> simp

/-- The `map(…).unwrap_or(false)` pattern used in the row check. -/
theorem winner_map_iff (w : Option Player) (c : Player) :
    (Option.map (fun winner => winner == c) w).getD false = true ↔ w = some c := by
  cases w <;> simp

/-- An if-then-else chain of boolean guards is a short-circuit disjunction. -/
theorem if_true_else (a x : Bool) : (if a = true then true else x) = (a || x) := by
  cases a <;> simp

/-- The second conjunct of `is_valid_move`: a passing move addresses an
existing leaf cell that is currently empty. -/
theorem valid_move_cell_empty (game : Game) (mov : MakeMoveData)
    (h : is_valid_move game mov = true) :
    ∃ b, game.board.get mov.big_board = some b
      ∧ b.get mov.small_board = some Space.empty := by
  unfold is_valid_move at h
  rw [Bool.and_eq_true] at h
  obtain ⟨-, h2⟩ := h
  cases hb : game.board.get mov.big_board with
  | none => rw [hb] at h2; simp at h2
  | some b =>
    rw [hb] at h2
    cases hs : b.get mov.small_board with
    | none => simp [hs] at h2
    | some sp =>
      simp [hs] at h2
      exact ⟨b, rfl, by rw [hs, h2]⟩

/-! Theorems about the claims. -/

/-- C8: `CreateGame` succeeds exactly when the wager, doubled, fits in an
unsigned 64-bit integer; the `checked_mul` guard runs during account
parsing, before any game state is produced, so an overflowing wager is
rejected with no game record created. -/
theorem create_game_overflow_check (data : CreateGameData) (key : Pubkey) :
    (∃ g, create_game data key = Except.ok g) ↔ data.wager * 2 ≤ U64_MAX := by
  unfold create_game checked_mul
  by_cases h : data.wager * 2 ≤ U64_MAX <;> simp [h]

/-- C1 counterexample: on a game with `turn_length = 0`, a forfeit by the
player who is not `next_play` is permitted even though the claim requires
`turn_length` to be non-zero and the elapsed time to exceed it (here the
clock has not even reached `last_turn`). -/
theorem forfeit_zero_turn_length_permitted :
    (forfeit_game idElo 2 1 50 forfeitS).isOk = true
    ∧ forfeitS.game.turn_length = 0
    ∧ ¬ saturating_add_i64 forfeitS.game.last_turn forfeitS.game.turn_length < 50 := by
  refine ⟨by decide, by decide, by decide⟩

/-- C1 amended: ForfeitGame is permitted exactly when `turn_length = 0` OR
the elapsed time since `last_turn` exceeds `turn_length`, AND the calling
profile is the player who is NOT `next_play` (and the supplied other profile
is `next_play`'s); otherwise it is rejected with no mutation. -/
theorem forfeit_permitted_iff (update_elo_k50 : EloUpdate)
    (player_profile_key other_profile_key : Pubkey) (now : Int) (s : ForfeitState) :
    (forfeit_game update_elo_k50 player_profile_key other_profile_key now s).isOk = true ↔
      ((s.game.turn_length = 0
          ∨ saturating_add_i64 s.game.last_turn s.game.turn_length < now)
        ∧ (match s.game.next_play with
            | Player.one => player_profile_key = s.game.player2
            | Player.two => player_profile_key = s.game.player1)
        ∧ (match s.game.next_play with
            | Player.one => other_profile_key = s.game.player1
            | Player.two => other_profile_key = s.game.player2)) := by
  have hval : forfeit_validate s.game player_profile_key other_profile_key now = true ↔
      ((s.game.turn_length = 0
          ∨ saturating_add_i64 s.game.last_turn s.game.turn_length < now)
        ∧ (match s.game.next_play with
            | Player.one => player_profile_key = s.game.player2
            | Player.two => player_profile_key = s.game.player1)
        ∧ (match s.game.next_play with
            | Player.one => other_profile_key = s.game.player1
            | Player.two => other_profile_key = s.game.player2)) := by
    unfold forfeit_validate
    cases s.game.next_play <;>
      simp [Bool.and_eq_true, Bool.or_eq_true, beq_iff_eq, decide_eq_true_eq, and_assoc]
  rw [← hval]
  unfold forfeit_game
  by_cases h : forfeit_validate s.game player_profile_key other_profile_key now = true <;>
    simp [h, Except.isOk, Except.toBool]

/-- C2 counterexample: in a forfeit settlement over a game with wager 5 and
a 10-lamport escrow pot, the claimant's `lamports_won` increases by the
per-player wager 5, not by the pot `2 × wager = 10` as the claim states
(and likewise the defaulter's `lamports_lost`). -/
theorem forfeit_counters_add_wager_not_pot :
    (forfeit_process idElo forfeitS).player_profile.lamports_won = 5
    ∧ (forfeit_process idElo forfeitS).other_profile.lamports_lost = 5
    ∧ forfeitS.player_profile.lamports_won = 0
    ∧ forfeitS.other_profile.lamports_lost = 0
    ∧ 2 * forfeitS.game.wager = 10
    ∧ forfeitS.game_signer_lamports = 10 := by
  refine ⟨by decide, by decide, by decide, by decide, by decide, by decide⟩

/-- C2 amended: a successful ForfeitGame settlement with the escrow holding
the pot (2 × wager) transfers the whole pot to the recipient and drains the
escrow; the claimant's profile gets `wins += 1` but `lamports_won += wager`
(the per-player wager, not the pot), the defaulter's gets `losses += 1` and
`lamports_lost += wager`, and the elo pair is replaced by the k = 50
claimant-won Elo update applied to (claimant, defaulter). -/
theorem forfeit_settlement_effects (update_elo_k50 : EloUpdate) (s : ForfeitState)
    (h : s.game_signer_lamports = 2 * s.game.wager) :
    (forfeit_process update_elo_k50 s).funds_to_lamports
        = s.funds_to_lamports + 2 * s.game.wager
    ∧ (forfeit_process update_elo_k50 s).game_signer_lamports = 0
    ∧ (forfeit_process update_elo_k50 s).player_profile.wins
        = saturating_add s.player_profile.wins 1
    ∧ (forfeit_process update_elo_k50 s).player_profile.lamports_won
        = saturating_add s.player_profile.lamports_won s.game.wager
    ∧ (forfeit_process update_elo_k50 s).other_profile.losses
        = saturating_add s.other_profile.losses 1
    ∧ (forfeit_process update_elo_k50 s).other_profile.lamports_lost
        = saturating_add s.other_profile.lamports_lost s.game.wager
    ∧ ((forfeit_process update_elo_k50 s).player_profile.elo,
        (forfeit_process update_elo_k50 s).other_profile.elo)
        = update_elo_k50 s.player_profile.elo s.other_profile.elo
    ∧ (forfeit_process update_elo_k50 s).game.player1 = 0
    ∧ (forfeit_process update_elo_k50 s).game.player2 = 0 := by
  simp [forfeit_process, h]

/-- C2 witness: the settlement theorem instantiated on the concrete forfeit
state `forfeitS` (wager 5, escrow 10). -/
theorem forfeit_settlement_effects_witness :
    forfeitS.game_signer_lamports = 2 * forfeitS.game.wager
    ∧ (forfeit_process idElo forfeitS).funds_to_lamports
        = forfeitS.funds_to_lamports + 2 * forfeitS.game.wager
    ∧ (forfeit_process idElo forfeitS).player_profile.lamports_won
        = saturating_add forfeitS.player_profile.lamports_won forfeitS.game.wager :=
  ⟨by decide,
    (forfeit_settlement_effects idElo forfeitS (by decide)).1,
    (forfeit_settlement_effects idElo forfeitS (by decide)).2.2.2.1⟩

/-- C10: `Space::make_move` always succeeds and unconditionally overwrites
the leaf cell with the moving player's mark, whatever the cell held
(including the other player's mark); the requirement that the target cell
be `Empty` is enforced only by the session-level `is_valid_move` check,
whose acceptance implies the addressed leaf cell is currently empty. -/
theorem space_make_move_unconditional (s : Space) (player : Player)
    (game : Game) (mov : MakeMoveData) :
    Space.make_move s player () = Except.ok (Space.ofPlayer player)
    ∧ (is_valid_move game mov = true →
        ∃ b, game.board.get mov.big_board = some b
          ∧ b.get mov.small_board = some Space.empty) := by
  exact ⟨rfl, valid_move_cell_empty game mov⟩

/-- C10 witness: overwriting a cell held by player two with player one's
mark succeeds, and a concrete accepted move addresses an empty cell. -/
theorem space_make_move_unconditional_witness :
    Space.make_move Space.playerTwo Player.one () = Except.ok Space.playerOne
    ∧ is_valid_move freshGame ⟨(0, 0), (1, 1)⟩ = true
    ∧ (∃ b, freshGame.board.get (0, 0) = some b
        ∧ b.get (1, 1) = some Space.empty) :=
  ⟨(space_make_move_unconditional Space.playerTwo Player.one freshGame ⟨(0, 0), (1, 1)⟩).1,
    by decide,
    (space_make_move_unconditional Space.playerTwo Player.one freshGame ⟨(0, 0), (1, 1)⟩).2
      (by decide)⟩

/-- C9: a successful `Board::make_move` by player P leaves the solved
status unchanged or makes it `Solved(P)`; it never produces `Solved(Q)` for
the other player, because the post-move winner check is evaluated only for
the moving player. -/
theorem make_move_winner_only_mover [CurrentWinner S I] (b : Board S)
    (player : Player) (index : (Nat × Nat) × I) (b2 : Board S)
    (h : Board.make_move b player index = Except.ok b2) :
    (b2.current_winner = b.current_winner ∨ b2.current_winner = some player)
    ∧ ∀ q : Player, q ≠ player → b2.current_winner ≠ some q := by
  cases b with
  | solved pl => simp [Board.make_move] at h
  | unsolved sub_board =>
    rw [show Board.make_move (Board.unsolved sub_board) player index
        = (if h0 : index.1.1 < 3 then
            if h1 : index.1.2 < 3 then
              match CurrentWinner.make_move
                  ((sub_board.get ⟨index.1.1, h0⟩).get ⟨index.1.2, h1⟩)
                  player index.2 with
              | Except.error e => Except.error e
              | Except.ok cell =>
                let sub_board' := sub_board.set ⟨index.1.1, h0⟩
                  ((sub_board.get ⟨index.1.1, h0⟩).set ⟨index.1.2, h1⟩ cell)
                if is_winner (I := I) sub_board' player then
                  Except.ok (Board.solved player)
                else
                  Except.ok (Board.unsolved sub_board')
            else Except.error CruiserError.indexOutOfBounds
          else Except.error CruiserError.indexOutOfBounds) from rfl] at h
    by_cases h0 : index.1.1 < 3
    · rw [dif_pos h0] at h
      by_cases h1 : index.1.2 < 3
      · rw [dif_pos h1] at h
        cases hm : CurrentWinner.make_move
            ((sub_board.get ⟨index.1.1, h0⟩).get ⟨index.1.2, h1⟩)
            player index.2 with
        | error e => rw [hm] at h; simp at h
        | ok cell =>
          rw [hm] at h
          simp only at h
          by_cases hw : is_winner (I := I)
              (sub_board.set ⟨index.1.1, h0⟩
                ((sub_board.get ⟨index.1.1, h0⟩).set ⟨index.1.2, h1⟩ cell))
              player = true
          · rw [if_pos hw] at h
            obtain rfl : b2 = Board.solved player := by
              cases h; rfl
            refine ⟨Or.inr rfl, ?_⟩
            intro q hq hc
            exact hq (by simpa [Board.current_winner] using hc.symm)
          · rw [if_neg hw] at h
            obtain rfl : b2 = Board.unsolved
                (sub_board.set ⟨index.1.1, h0⟩
                  ((sub_board.get ⟨index.1.1, h0⟩).set ⟨index.1.2, h1⟩ cell)) := by
              cases h; rfl
            exact ⟨Or.inl rfl, fun q _ hc => by simp [Board.current_winner] at hc⟩
      · rw [dif_neg h1] at h; simp at h
    · rw [dif_neg h0] at h; simp at h

/-- C9 witness: the invariant applied to player one completing row 0 of a
concrete sub-board, which becomes `Solved(one)` and not `Solved(two)`. -/
theorem make_move_winner_only_mover_witness :
    Board.make_move subNearWin Player.one ((0, 2), ()) = Except.ok (Board.solved Player.one)
    ∧ ((Board.solved Player.one : Board Space).current_winner = subNearWin.current_winner
        ∨ (Board.solved Player.one : Board Space).current_winner = some Player.one)
    ∧ ∀ q : Player, q ≠ Player.one →
        (Board.solved Player.one : Board Space).current_winner ≠ some q :=
  ⟨by decide,
    (make_move_winner_only_mover subNearWin Player.one ((0, 2), ()) (Board.solved Player.one)
      (by decide)).1,
    (make_move_winner_only_mover subNearWin Player.one ((0, 2), ()) (Board.solved Player.one)
      (by decide)).2⟩

/-- C7: a successful MakeMove after which the top-level board is not won by
the mover toggles `next_play` to the other player, sets `last_turn` to the
current clock time, and sets `last_move` to the small-board coordinate of
the move; the board becomes the engine's output and nothing else changes. -/
theorem non_winning_move_transition (s : MakeMoveState) (data : MakeMoveData)
    (now : Int) (board2 : Board (Board Space))
    (hmove : Board.make_move s.game.board s.game.next_play
        (data.big_board, (data.small_board, ())) = Except.ok board2)
    (hnowin : board2.current_winner ≠ some s.game.next_play) :
    make_move_process s data now = Except.ok
      { s with game := { s.game with
          board := board2
          next_play := match s.game.next_play with
            | Player.one => Player.two
            | Player.two => Player.one
          last_turn := now
          last_move := data.small_board } } := by
  have hbeq : (board2.current_winner == some s.game.next_play) = false := by
    simpa using hnowin
  unfold make_move_process
  simp only [hmove]
  simp [hbeq]

/-- C7 witness: the transition theorem applied to player one's opening move
at big (0,0), small (1,1) on a fresh game at clock time 42. -/
theorem non_winning_move_transition_witness :
    make_move_process nonWinS ⟨(0, 0), (1, 1)⟩ 42 = Except.ok
      { nonWinS with game := { freshGame with
          board := boardAfterFirst
          next_play := Player.two
          last_turn := 42
          last_move := (1, 1) } } :=
  non_winning_move_transition nonWinS ⟨(0, 0), (1, 1)⟩ 42 boardAfterFirst
    (by decide) (by decide)

/-- C6: a MakeMove that makes the top-level board `Solved(next_play)`, with
the settlement accounts supplied and the escrow holding the pot (2 × wager),
pays the pot to the designated recipient, drains the escrow, gives the
mover's profile `wins += 1` and `lamports_won += 2 × wager`, gives the
opponent's profile `losses += 1` and `lamports_lost += 2 × wager`, and burns
the game's player keys. -/
theorem winning_move_settlement (s : MakeMoveState) (data : MakeMoveData)
    (now : Int) (board2 : Board (Board Space)) (other : PlayerProfile) (ft : Nat)
    (hmove : Board.make_move s.game.board s.game.next_play
        (data.big_board, (data.small_board, ())) = Except.ok board2)
    (hwin : board2.current_winner = some s.game.next_play)
    (hsigner : s.game_signer_lamports = some (2 * s.game.wager))
    (hother : s.other_profile = some other)
    (hft : s.funds_to_lamports = some ft)
    (hsys : s.has_system_program = true) :
    make_move_process s data now = Except.ok
      { game := { s.game with board := board2, player1 := 0, player2 := 0 }
        player_profile := { s.player_profile with
          wins := saturating_add s.player_profile.wins 1
          lamports_won := saturating_add s.player_profile.lamports_won (2 * s.game.wager) }
        other_profile := some { other with
          losses := saturating_add other.losses 1
          lamports_lost := saturating_add other.lamports_lost (2 * s.game.wager) }
        game_signer_lamports := some 0
        funds_to_lamports := some (ft + 2 * s.game.wager)
        has_system_program := true } := by
  unfold make_move_process
  simp only [hmove]
  simp [hwin, hsigner, hother, hft, hsys]

/-- C6 witness: the settlement theorem applied to player one's winning move
at big (0,2), small (0,2) on `winMoveS` (wager 50, escrow 100). -/
theorem winning_move_settlement_witness :
    make_move_process winMoveS ⟨(0, 2), (0, 2)⟩ 99 = Except.ok winResultS :=
  winning_move_settlement winMoveS ⟨(0, 2), (0, 2)⟩ 99 (Board.solved Player.one)
    profileB 7 (by decide) (by decide) (by decide) (by decide) (by decide) (by decide)

/-- C5: terminal states are absorbing. (1) `Board::make_move` on a `Solved`
board always fails with the IllegalMove error and returns no mutated board;
(2) a MakeMove operation on a game whose top-level board is solved is
rejected in the validate phase with no mutation; (3) after a settlement has
burned both player keys to the zero key, any further ForfeitGame by a real
profile account (non-zero key) is rejected, so the escrow cannot be
released twice. -/
theorem solved_board_absorbing (pl player : Player)
    (index : (Nat × Nat) × ((Nat × Nat) × Unit))
    (caller_key : Pubkey) (other_key : Option Pubkey) (s : MakeMoveState)
    (data : MakeMoveData) (now : Int) (update_elo_k50 : EloUpdate)
    (fkey okey : Pubkey) (fnow : Int) (fs : ForfeitState) :
    Board.make_move (Board.solved pl : Board (Board Space)) player index
        = Except.error (CruiserError.custom "Cannot make move on solved board")
    ∧ (s.game.board = Board.solved pl →
        make_move_instruction caller_key other_key s data now
          = Except.error (CruiserError.custom "make_move validation failed"))
    ∧ (fs.game.player1 = 0 → fs.game.player2 = 0 → fkey ≠ 0 →
        forfeit_game update_elo_k50 fkey okey fnow fs
          = Except.error (CruiserError.custom "forfeit validation failed")) := by
  refine ⟨rfl, ?_, ?_⟩
  · intro hb
    have hv : is_valid_move s.game data = false := by
      simp [is_valid_move, hb, Board.get]
    simp [make_move_instruction, make_move_validate, hv]
  · intro h1 h2 hk
    have hv : forfeit_validate fs.game fkey okey fnow = false := by
      unfold forfeit_validate
      rw [h1, h2]
      cases fs.game.next_play <;> simp [hk]
    simp [forfeit_game, hv]

/-- C5 witness: the absorbing-state theorem applied to a concrete solved
board, a concrete MakeMove on a solved game, and a concrete second forfeit
attempt on a settled game. -/
theorem solved_board_absorbing_witness :
    Board.make_move (Board.solved Player.one : Board (Board Space)) Player.two
        ((0, 0), ((0, 0), ()))
        = Except.error (CruiserError.custom "Cannot make move on solved board")
    ∧ make_move_instruction 1 none solvedGameS ⟨(0, 0), (0, 0)⟩ 5
        = Except.error (CruiserError.custom "make_move validation failed")
    ∧ forfeit_game idElo 9 1 0 forfeitSettledS
        = Except.error (CruiserError.custom "forfeit validation failed") :=
  ⟨(solved_board_absorbing Player.one Player.two ((0, 0), ((0, 0), ())) 1 none
      solvedGameS ⟨(0, 0), (0, 0)⟩ 5 idElo 9 1 0 forfeitSettledS).1,
    (solved_board_absorbing Player.one Player.two ((0, 0), ((0, 0), ())) 1 none
      solvedGameS ⟨(0, 0), (0, 0)⟩ 5 idElo 9 1 0 forfeitSettledS).2.1 rfl,
    (solved_board_absorbing Player.one Player.two ((0, 0), ((0, 0), ())) 1 none
      solvedGameS ⟨(0, 0), (0, 0)⟩ 5 idElo 9 1 0 forfeitSettledS).2.2 rfl rfl
      (by decide)⟩

/-- The leaf-cell conjunct of `is_valid_move` as an existential. -/
theorem cell_check_iff (game : Game) (mov : MakeMoveData) :
    (match game.board.get mov.big_board with
      | some board =>
        match board.get mov.small_board with
        | some space => space == Space.empty
        | none => false
      | none => false) = true
    ↔ ∃ b, game.board.get mov.big_board = some b
        ∧ b.get mov.small_board = some Space.empty := by
  cases hb : game.board.get mov.big_board with
  | none => simp
  | some b =>
    cases hs : b.get mov.small_board with
    | none => simp [hs]
    | some sp => simp [hs]

/-- The last-move conjunct of `is_valid_move` as an existential. -/
theorem last_move_check_iff (game : Game) (mov : MakeMoveData) :
    (match game.board.get game.last_move with
      | some board =>
        board.current_winner.isSome || decide (mov.big_board = game.last_move)
      | none => false) = true
    ↔ ∃ b, game.board.get game.last_move = some b
        ∧ (b.current_winner.isSome = true ∨ mov.big_board = game.last_move) := by
  cases hg : game.board.get game.last_move with
  | none => simp
  | some b => simp

/-- C3: `is_valid_move` accepts a `(big_board, small_board)` request exactly
when (1) `last_move` is the sentinel `[3,3]`, or the sub-board addressed by
the current `last_move` exists and is already solved, or otherwise
`big_board` equals the current `last_move`; and (2) the leaf cell addressed
by `big_board` then `small_board` exists and is currently `Empty`. Running
in the validate phase, a failing check rejects the request before any
mutation. -/
theorem is_valid_move_iff (game : Game) (mov : MakeMoveData) :
    is_valid_move game mov = true ↔
      ((game.last_move = (3, 3)
          ∨ (∃ b, game.board.get game.last_move = some b
              ∧ b.current_winner.isSome = true)
          ∨ mov.big_board = game.last_move)
        ∧ ∃ b, game.board.get mov.big_board = some b
            ∧ b.get mov.small_board = some Space.empty) := by
  unfold is_valid_move
  rw [Bool.and_eq_true, Bool.or_eq_true, decide_eq_true_eq, last_move_check_iff,
    cell_check_iff]
  constructor
  · rintro ⟨h1, h2⟩
    refine ⟨?_, h2⟩
    rcases h1 with hs | ⟨b, hg, hw | hb⟩
    · exact Or.inl hs
    · exact Or.inr (Or.inl ⟨b, hg, hw⟩)
    · exact Or.inr (Or.inr hb)
  · rintro ⟨h1, h2⟩
    refine ⟨?_, h2⟩
    rcases h1 with hs | ⟨b, hg, hw⟩ | hb
    · exact Or.inl hs
    · exact Or.inr ⟨b, hg, Or.inl hw⟩
    · obtain ⟨b, hgb, -⟩ := h2
      rw [hb] at hgb
      exact Or.inr ⟨b, hgb, Or.inr hb⟩

/-- C4 counterexample: on a grid whose row 0 is fully occupied by player one
and whose row 1 is fully occupied by player two, every cell of row 0
reports occupant one, yet `is_winner` is true for player two as well — not
false for every occupant other than one, as the claim states. -/
theorem is_winner_two_lines_counterexample :
    (twoLineGrid.x0.all fun s => Space.current_winner s == some Player.one) = true
    ∧ is_winner (I := Unit) twoLineGrid Player.one = true
    ∧ is_winner (I := Unit) twoLineGrid Player.two = true := by
  refine ⟨by decide, by decide, by decide⟩

/-- C4 amended: `is_winner(grid, candidate)` is true exactly when one of the
3 rows, 3 columns, or 2 diagonals is fully occupied by cells whose
`current_winner` equals `candidate`; hence a grid with such a line for P
makes `is_winner` true for P, and `is_winner` is false for another occupant
only when no line is fully occupied by that occupant. -/
theorem is_winner_iff_line [CurrentWinner S I] (board : Grid S) (candidate : Player) :
    is_winner (I := I) board candidate = true ↔
      ((∃ r : Fin 3, ∀ c : Fin 3,
          CurrentWinner.current_winner (I := I) ((board.get r).get c)
            = some candidate)
        ∨ (∃ c : Fin 3, ∀ r : Fin 3,
            CurrentWinner.current_winner (I := I) ((board.get r).get c)
              = some candidate)
        ∨ (∀ i : Fin 3,
            CurrentWinner.current_winner (I := I) ((board.get i).get i)
              = some candidate)
        ∨ (∀ i : Fin 3,
            CurrentWinner.current_winner (I := I) ((board.get i).get (Fin.rev i))
              = some candidate)) := by
  unfold is_winner
  rw [if_true_else, if_true_else]
  simp only [Bool.or_eq_true, Vec3.any_eq_true_iff, Vec3.all_eq_true_iff, fin3_any_iff,
    fin3_countP_eq_three_iff, winner_map_iff, winner_match_iff]

end Tutorial
